import Mathlib

/-!
Verification of the reflection-loop script (`basic.py` + `chains.py`).

The program wires two prompt templates and a hosted LLM into a
generate/critique loop on a `MessageGraph`.  We embed the conversation
data model, the two node functions, the routing function
`should_continue`, the graph's one-step transition, and the compiled
application's run loop, and prove the spec's claims about them.

The remote model is an opaque oracle: a function from the formatted
prompt (system preamble plus the ordered conversation) to the reply
text, fallible (`Except`) where error behaviour matters and pure where
every call is assumed to succeed.
-/

/-- A conversation turn: a role tag plus text content
(`langchain_core.messages`: `HumanMessage` / `AIMessage`). -/
inductive Role where
  | human
  | ai
deriving DecidableEq, Repr

/-- One role-tagged unit of conversation text. -/
structure Msg where
  role : Role
  content : String
deriving DecidableEq, Repr

/-- A formatted request to the model: the fixed system preamble paired
with the running conversation (`ChatPromptTemplate.from_messages` with a
`MessagesPlaceholder`). -/
def Prompt : Type := String × List Msg

/-- System preamble of `generation_prompt` (chains.py). -/
def generation_preamble : String :=
  "You are a twitter techie influencer assistant tasked with writing excellent twitter posts. Generate the best twitter post possible for the user's request. If the user provides critique, respond with a revised version of your previous attempts."

/-- System preamble of `reflection_prompt` (chains.py). -/
def reflection_preamble : String :=
  "You are a viral twitter influencer grading a tweet. Generate critique and recommendations for the user's tweet. Always provide detailed recommendations, including requests for length, virality, style, etc."

/-- `generation_chain.invoke({"messages": messages})` (chains.py:
`generation_prompt | llm`): format the conversation under the generation
preamble, call the model, get back its reply as an assistant message. -/
def generation_chain_invoke (f : Prompt → String) (messages : List Msg) : Msg :=
  ⟨Role.ai, f (generation_preamble, messages)⟩

/-- `reflection_chain.invoke({"messages": messages})` (chains.py:
`reflection_prompt | llm`). -/
def reflection_chain_invoke (f : Prompt → String) (messages : List Msg) : Msg :=
  ⟨Role.ai, f (reflection_preamble, messages)⟩

/-- `generate_node` (basic.py lines 25-28): invoke the generation chain
on the state and return its reply.  `MessageGraph` treats the single
returned message as a one-element update, so we return the one-element
list that gets appended. -/
def generate_node (f : Prompt → String) (state : List Msg) : List Msg :=
  [generation_chain_invoke f state]

/-- `reflect_node` (basic.py lines 31-35): invoke the reflection chain
and re-wrap the reply's content as a `HumanMessage`. -/
def reflect_node (f : Prompt → String) (messages : List Msg) : List Msg :=
  [⟨Role.human, (reflection_chain_invoke f messages).content⟩]

/-- Node name `"generate"` (basic.py line 22). -/
def GENERATE : String := "generate"

/-- Node name `"reflect"` (basic.py line 21). -/
def REFLECT : String := "reflect"

/-- `langgraph.graph.END`, the sentinel name of the terminal node. -/
def END : String := "__end__"

/-- `should_continue` (basic.py lines 43-46): routing function of the
conditional edge out of `GENERATE`; sees the state with the generate
node's output already appended. -/
def should_continue (state : List Msg) : String :=
  if state.length > 6 then END else REFLECT

/-- `graph.set_entry_point(GENERATE)` (basic.py line 40). -/
def entry_point : String := GENERATE

/-- One transition of the compiled graph: run the current node on the
conversation, append its output, and route — via `should_continue` after
`GENERATE` (basic.py line 49), unconditionally to `GENERATE` after
`REFLECT` (basic.py line 50: `graph.add_edge(REFLECT, GENERATE)`). -/
def stepMachine (f : Prompt → String) : String × List Msg → String × List Msg
  | (node, state) =>
    if node = GENERATE then
      let s1 := state ++ generate_node f state
      (should_continue s1, s1)
    else if node = REFLECT then
      (GENERATE, state ++ reflect_node f state)
    else
      (node, state)

example : should_continue [⟨Role.human, "a"⟩] = REFLECT := by decide
example :
    should_continue
      [⟨Role.human, "a"⟩, ⟨Role.ai, "b"⟩, ⟨Role.human, "c"⟩, ⟨Role.ai, "d"⟩,
       ⟨Role.human, "e"⟩, ⟨Role.ai, "f"⟩, ⟨Role.ai, "g"⟩] = END := by decide

/-- An observable event of a run: a line printed to standard output, or
a completed model call made by one of the two nodes.  Call events record
the conversation length right after the call's output is appended. -/
inductive Event where
  | printed : String → Event
  | genCall : Nat → Event
  | reflCall : Nat → Event
deriving DecidableEq, Repr

/-- `true` exactly on the model-call events. -/
def Event.isModelCall : Event → Bool
  | .printed _ => false
  | .genCall _ => true
  | .reflCall _ => true

/-- Lengths recorded by the generation-call events of a trace, in
order; its length is the number of generation calls performed. -/
def genLens (t : List Event) : List Nat :=
  t.filterMap fun e =>
    match e with
    | .genCall n => some n
    | _ => none

/-- Lengths recorded by the reflection-call events of a trace. -/
def reflLens (t : List Event) : List Nat :=
  t.filterMap fun e =>
    match e with
    | .reflCall n => some n
    | _ => none

/-- A model oracle that never fails, as the fallible interface expects. -/
def pureLLM (f : Prompt → String) : Prompt → Except String String :=
  fun p => Except.ok (f p)

/-- The compiled application's loop (`app = graph.compile()`;
`app.invoke`), started at node `GENERATE` on `state`: run the generate
node, append its reply; if `should_continue` routes to `END` stop with
the conversation, otherwise run the reflect node, append its re-tagged
reply, and continue from `GENERATE`.  A model error aborts the run at
once with that error; the trace records the completed calls in order. -/
def runFrom (llm : Prompt → Except String String) (state : List Msg) :
    List Event × Except String (List Msg) :=
  match llm (generation_preamble, state) with
  | .error e => ([], .error e)
  | .ok content =>
    let s1 := state ++ [⟨Role.ai, content⟩]
    if h : should_continue s1 = END then
      ([Event.genCall s1.length], .ok s1)
    else
      match llm (reflection_preamble, s1) with
      | .error e => ([Event.genCall s1.length], .error e)
      | .ok rcontent =>
        let s2 := s1 ++ [⟨Role.human, rcontent⟩]
        let r := runFrom llm s2
        (Event.genCall s1.length :: Event.reflCall s2.length :: r.1, r.2)
termination_by 7 - state.length
decreasing_by
  have hle : ¬ s1.length > 6 := fun hl => h (by simp [should_continue, hl])
  simp only [s2, s1, List.length_append, List.length_cons, List.length_nil] at hle ⊢
  omega

/-- `pydantic.SecretStr` (basic.py line 10): a wrapper that holds the
credential; `get_secret_value` (line 11) recovers the raw string. -/
structure SecretStr where
  get_secret_value : String
deriving DecidableEq, Repr

/-- The ways the program can fail. -/
inductive ProgError where
  /-- chains.py line 11: `assert "GOOGLE_API_KEY" in os.environ` fails. -/
  | missingKey
  /-- basic.py line 10: `os.environ["GOOGLE_API_KEY"]` raises `KeyError`. -/
  | keyError
  /-- an exception raised by a remote model call, carried unmodified. -/
  | llmFailure : String → ProgError
deriving DecidableEq, Repr

/-- Top level of `chains.py`, run when `basic.py` imports it (basic.py
line 5): assert the credential is in the environment (line 11), then
print it in clear text (line 12: `print("GOOGLE_API_KEY loaded:", ...)`,
Python's `print` joining its arguments with one space).  Constructing
the `ChatGoogleGenerativeAI` client and the two chains performs no model
call and prints nothing. -/
def chains_module (env : String → Option String) : Except ProgError (List Event) :=
  match env "GOOGLE_API_KEY" with
  | none => .error .missingKey
  | some k => .ok [Event.printed ("GOOGLE_API_KEY loaded: " ++ k)]

/-- `SecretStr(os.environ["GOOGLE_API_KEY"])` (basic.py line 10). -/
def GOOGLE_API_KEY_of (k : String) : SecretStr := ⟨k⟩

/-- The single `HumanMessage` the app is invoked on (basic.py line 56). -/
def initial_messages : List Msg :=
  [⟨Role.human, "AI Agents taking over content creation"⟩]

/-- Modelled from the spec: the run prints a textual or diagrammatic
rendering of the control-flow graph (`app.get_graph().draw_mermaid()`,
basic.py line 54); the rendering text is produced by the third-party
graph library and is treated as an opaque constant. -/
def mermaid_text : String := "<mermaid rendering of the two-node graph>"

/-- Modelled from the spec: `app.get_graph().print_ascii()` (basic.py
line 55), same opaque rendering as `mermaid_text`. -/
def ascii_text : String := "<ascii rendering of the two-node graph>"

/-- Rendering of the final conversation for `print(response)` (basic.py
line 58). -/
def reprMsgs (ms : List Msg) : String :=
  String.intercalate ", " (ms.map Msg.content)

/-- The whole program, `python basic.py`: import `chains` (running its
top level), read the credential into a `SecretStr`, build and compile
the graph, print its renderings, invoke the app on the initial message,
and print the final conversation.  Returns the ordered trace of
observable events together with the run's outcome. -/
def basic_main (env : String → Option String) (llm : Prompt → Except String String) :
    List Event × Except ProgError (List Msg) :=
  match chains_module env with
  | .error e => ([], .error e)
  | .ok chainsOut =>
    match env "GOOGLE_API_KEY" with
    | none => (chainsOut, .error .keyError)
    | some _k =>
      let startup := chainsOut ++ [Event.printed mermaid_text, Event.printed ascii_text]
      match runFrom llm initial_messages with
      | (evs, .error e) => (startup ++ evs, .error (.llmFailure e))
      | (evs, .ok final) => (startup ++ evs ++ [Event.printed (reprMsgs final)], .ok final)

/-- C2: the loop controller starts at the generation node; right after a
generation step the run terminates exactly when the conversation length
(with the step's output appended) exceeds 6 and otherwise moves to the
reflection node; after a reflection step it moves back to the generation
node unconditionally, so a reflection step never routes to `END`. -/
theorem loop_controller_state_machine :
    entry_point = GENERATE ∧
    (∀ f s, ((stepMachine f (GENERATE, s)).1 = END ↔
        (stepMachine f (GENERATE, s)).2.length > 6)) ∧
    (∀ f s, ((stepMachine f (GENERATE, s)).1 = REFLECT ↔
        ¬ (stepMachine f (GENERATE, s)).2.length > 6)) ∧
    (∀ f s, (stepMachine f (REFLECT, s)).1 = GENERATE ∧
        (stepMachine f (REFLECT, s)).1 ≠ END) := by
  refine ⟨rfl, ?_, ?_, ?_⟩ <;> intro f s <;>
    by_cases hl : s.length + 1 > 6 <;>
      simp [stepMachine, should_continue, generate_node, reflect_node,
        GENERATE, REFLECT, END, hl]

/-- C3: each formatter step (generation or reflection) grows the
conversation by exactly one turn: its output becomes one new appended
turn before the next step runs. -/
theorem formatter_steps_append_exactly_one_turn :
    ∀ f s, (stepMachine f (GENERATE, s)).2.length = s.length + 1 ∧
      (stepMachine f (REFLECT, s)).2.length = s.length + 1 := by
  intro f s
  constructor <;>
    simp [stepMachine, generate_node, reflect_node, GENERATE, REFLECT]

/-- C4: every step of the graph leaves the prior conversation intact: the
conversation after any step is the conversation before it with some
suffix appended, so no prior turn is rewritten, reordered or deleted. -/
theorem steps_only_append_prior_turns_intact :
    ∀ f node s, ∃ t, (stepMachine f (node, s)).2 = s ++ t := by
  intro f node s
  by_cases hg : node = GENERATE
  · exact ⟨generate_node f s, by simp [stepMachine, hg]⟩
  · by_cases hr : node = REFLECT
    · exact ⟨reflect_node f s, by simp [stepMachine, hg, hr, GENERATE, REFLECT]⟩
    · exact ⟨[], by simp [stepMachine, hg, hr]⟩

/-- C5: the reflection step re-tags the model's reply — the chain hands
back an assistant-roled message, and the step appends exactly one
human-roled turn carrying that reply's content verbatim; the generation
step appends the assistant-roled reply unchanged. -/
theorem reflection_retags_reply_as_human :
    ∀ f s,
      (reflection_chain_invoke f s).role = Role.ai ∧
      (stepMachine f (REFLECT, s)).2 =
        s ++ [⟨Role.human, (reflection_chain_invoke f s).content⟩] ∧
      (generation_chain_invoke f s).role = Role.ai ∧
      (stepMachine f (GENERATE, s)).2 = s ++ [generation_chain_invoke f s] := by
  intro f s
  refine ⟨rfl, ?_, rfl, ?_⟩ <;>
    simp [stepMachine, generate_node, reflect_node, GENERATE, REFLECT]

/-- C1 (counterexample): running the compiled app on the program's
one-human-turn starting conversation with the reply text fixed to
`"x"`, the trace holds 4 generation calls and 3 reflection calls, so the
claimed "exactly 3 generation calls and 2 reflection calls" is false. -/
theorem one_turn_scenario_not_three_gen_two_refl :
    (genLens (runFrom (pureLLM fun _ => "x") initial_messages).1).length = 4 ∧
    (reflLens (runFrom (pureLLM fun _ => "x") initial_messages).1).length = 3 ∧
    ¬ ((genLens (runFrom (pureLLM fun _ => "x") initial_messages).1).length = 3 ∧
       (reflLens (runFrom (pureLLM fun _ => "x") initial_messages).1).length = 2) := by
  have h4 : (genLens (runFrom (pureLLM fun _ => "x") initial_messages).1).length = 4 := by
    simp [runFrom, pureLLM, should_continue, END, REFLECT, initial_messages, genLens]
  have h3 : (reflLens (runFrom (pureLLM fun _ => "x") initial_messages).1).length = 3 := by
    simp [runFrom, pureLLM, should_continue, END, REFLECT, initial_messages, reflLens]
  exact ⟨h4, h3, by omega⟩

/-- C1 (amended): for a run whose starting conversation is exactly one
human input turn and with the threshold fixed at 6, the loop performs
exactly 4 generation calls and 3 reflection calls before termination,
whatever reply text the model returns. -/
theorem one_turn_run_four_gen_three_refl (f : Prompt → String) (c : String) :
    (genLens (runFrom (pureLLM f) [⟨Role.human, c⟩]).1).length = 4 ∧
    (reflLens (runFrom (pureLLM f) [⟨Role.human, c⟩]).1).length = 3 := by
  constructor <;>
    simp [runFrom, pureLLM, should_continue, END, REFLECT, genLens, reflLens]

/-- C8: from any one-turn starting conversation, when every model call
succeeds the loop terminates with a final conversation of exactly 8
turns; the trace is exactly 4 generation calls, with conversation
lengths 2, 4, 6, 8 right after them, interleaved with 3 reflection
calls at lengths 3, 5, 7 — the termination check `len > 6` first
succeeds at length 8. -/
theorem successful_run_eight_turns_four_gen_three_refl (f : Prompt → String) (m : Msg) :
    (runFrom (pureLLM f) [m]).1 =
      [Event.genCall 2, Event.reflCall 3, Event.genCall 4, Event.reflCall 5,
       Event.genCall 6, Event.reflCall 7, Event.genCall 8] ∧
    ((runFrom (pureLLM f) [m]).2.map List.length) = Except.ok 8 := by
  constructor <;>
    simp [runFrom, pureLLM, should_continue, END, REFLECT, Except.map]

/-- C6: when `GOOGLE_API_KEY` is absent from the environment, the
program fails at startup with the assertion error from importing
`chains`, before anything is printed and with zero model calls: the
event trace is empty. -/
theorem missing_credential_fails_with_zero_model_calls
    (env : String → Option String) (llm : Prompt → Except String String)
    (h : env "GOOGLE_API_KEY" = none) :
    basic_main env llm = ([], Except.error ProgError.missingKey) := by
  simp [basic_main, chains_module, h]

/-- C6 witness: the empty environment is missing the credential and the
run on it fails with no events. -/
theorem missing_credential_witness :
    ((fun _ => none : String → Option String) "GOOGLE_API_KEY" = none) ∧
    basic_main (fun _ => none) (fun _ => Except.ok "x") =
      ([], Except.error ProgError.missingKey) :=
  ⟨rfl, missing_credential_fails_with_zero_model_calls
    (fun _ => none) (fun _ => Except.ok "x") rfl⟩

/-- C7: if the remote model raises on the very first generation call,
the run aborts with that error carried unmodified, the partial
conversation is not returned, and no model-call event — in particular no
reflection call — appears in the trace; nothing retries the call. -/
theorem first_generation_error_aborts_run
    (env : String → Option String) (llm : Prompt → Except String String)
    (k e : String)
    (hk : env "GOOGLE_API_KEY" = some k)
    (he : llm (generation_preamble, initial_messages) = Except.error e) :
    (basic_main env llm).2 = Except.error (ProgError.llmFailure e) ∧
    ((basic_main env llm).1.filter Event.isModelCall) = [] := by
  constructor <;>
    simp [basic_main, chains_module, hk, runFrom, he, Event.isModelCall]

/-- C7 witness: with the credential present and a model that always
raises `"boom"`, the run aborts with `"boom"` and an all-print trace. -/
theorem first_generation_error_witness :
    ((fun _ => some "sk-test" : String → Option String) "GOOGLE_API_KEY" = some "sk-test") ∧
    ((fun _ => Except.error "boom" : Prompt → Except String String)
        (generation_preamble, initial_messages) = Except.error "boom") ∧
    (basic_main (fun _ => some "sk-test") (fun _ => Except.error "boom")).2 =
      Except.error (ProgError.llmFailure "boom") ∧
    ((basic_main (fun _ => some "sk-test") (fun _ => Except.error "boom")).1.filter
        Event.isModelCall) = [] :=
  ⟨rfl, rfl,
    first_generation_error_aborts_run (fun _ => some "sk-test")
      (fun _ => Except.error "boom") "sk-test" "boom" rfl rfl⟩

/-- C9: whenever the credential is present, the very first line the
program writes to standard output is `"GOOGLE_API_KEY loaded: "`
followed by the secret value in clear text — before any model call,
whatever the model does. -/
theorem secret_printed_in_clear_before_any_model_call
    (env : String → Option String) (llm : Prompt → Except String String)
    (k : String) (hk : env "GOOGLE_API_KEY" = some k) :
    ∃ rest, (basic_main env llm).1 =
      Event.printed ("GOOGLE_API_KEY loaded: " ++ k) :: rest := by
  rcases hr : runFrom llm initial_messages with ⟨evs, res⟩
  cases res with
  | error e =>
    exact ⟨[Event.printed mermaid_text, Event.printed ascii_text] ++ evs,
      by simp [basic_main, chains_module, hk, hr]⟩
  | ok final =>
    exact ⟨[Event.printed mermaid_text, Event.printed ascii_text] ++ evs ++
        [Event.printed (reprMsgs final)],
      by simp [basic_main, chains_module, hk, hr]⟩

/-- C9 witness: with the credential set to `"topsecret"`, the first
output line carries `"topsecret"` in clear text. -/
theorem secret_printed_witness :
    ((fun _ => some "topsecret" : String → Option String) "GOOGLE_API_KEY" =
      some "topsecret") ∧
    ∃ rest, (basic_main (fun _ => some "topsecret") (fun _ => Except.ok "x")).1 =
      Event.printed ("GOOGLE_API_KEY loaded: " ++ "topsecret") :: rest :=
  ⟨rfl, secret_printed_in_clear_before_any_model_call
    (fun _ => some "topsecret") (fun _ => Except.ok "x") "topsecret" rfl⟩
